import Mathlib

/-!
Shallow embedding of `src/zip_prompt.py` (redweather): the geocode
resolver, the override store, the notifier and the dialog controller,
together with theorems settling the specification claims.
-/

/-- JSON values as produced by Python json.loads. Numbers are modelled
as rationals (every JSON numeric literal denotes a rational). Objects
keep their fields as a list; json.loads keeps the last binding of a
duplicated key, which `jsonLookup` below honours. -/
inductive Json where
  | null
  | bool (b : Bool)
  | num (n : Rat)
  | str (s : String)
  | arr (elems : List Json)
  | obj (fields : List (String × Json))

/-- Lookup in the field list of a JSON object, taking the last binding of a
key, as the Python dict built by json.loads does. -/
def jsonLookup (fields : List (String × Json)) (k : String) : Option Json :=
  (fields.reverse.find? (fun p => p.1 == k)).map (fun p => p.2)

/-- Python truthiness of a parsed JSON value. -/
def Json.truthy : Json → Bool
  | .null => false
  | .bool b => b
  | .num n => n != 0
  | .str s => !s.isEmpty
  | .arr elems => !elems.isEmpty
  | .obj fields => !fields.isEmpty

/-- isinstance(v, dict). -/
def Json.isObj : Json → Bool
  | .obj _ => true
  | _ => false

/-- isinstance(v, list). -/
def Json.isArr : Json → Bool
  | .arr _ => true
  | _ => false

/-- Whether a JSON value is a number. -/
def Json.isNum : Json → Bool
  | .num _ => true
  | _ => false

/-- the Python expression `k in d` on a parsed JSON object (false on non-objects; the
source only uses it after an isinstance(dict) check). -/
def Json.hasKey : Json → String → Bool
  | .obj fields, k => (jsonLookup fields k).isSome
  | _, _ => false

/-- Python dict.get(k), with `Json.null` standing for Python None when
the key is absent. The source also uses the subscripts data["lat"] and
data["lon"], but only after checking `"lat" in data` and `"lon" in data`,
where subscripting agrees with dict.get. -/
def Json.dget : Json → String → Json
  | .obj fields, k => (jsonLookup fields k).getD Json.null
  | _, _ => Json.null

/-- Uncaught Python exceptions the embedded code can raise. -/
inductive PyErr where
  | ioError
  | attributeError
  deriving DecidableEq

/-- Python attribute access `v.get(k)`: raises AttributeError when the
receiver is not a dict (ints, strings, lists, booleans and None have no
`get` method). -/
def pyGet (v : Json) (k : String) : Except PyErr Json :=
  match v with
  | .obj fields => .ok ((jsonLookup fields k).getD Json.null)
  | _ => .error .attributeError

/-- Python str() as used by the f-string label formatting. The cases for
strings, booleans and None are exact; numeric, array and object values
receive a definite placeholder rendering (the Python float and container
repr is not modelled — the theorems below only exercise string-valued
or absent label fields). -/
def pyStr : Json → String
  | .null => "None"
  | .bool true => "True"
  | .bool false => "False"
  | .num n => toString n
  | .str s => s
  | .arr _ => "[...]"
  | .obj _ => "\x7b...\x7d"

/-- Python `a or b` on JSON values. -/
def pyOr (a b : Json) : Json := if a.truthy then a else b

/-- Python str.strip(): leading and trailing whitespace removed. The
character-list implementation mirrors the Python semantics directly. -/
def pyStrip (s : String) : String :=
  ⟨((s.data.dropWhile Char.isWhitespace).reverse.dropWhile Char.isWhitespace).reverse⟩

/-- Python str.replace(c, "") for a single-character pattern: every
occurrence of the character is removed. -/
def pyRemoveAll (c : Char) (s : String) : String :=
  ⟨s.data.filter (fun a => a ≠ c)⟩

/-- Python `c in s` for a single character. -/
def pyContains (s : String) (c : Char) : Bool :=
  s.data.any (fun a => a == c)

/-- Python str.isdigit() on ASCII content: true iff the string is
non-empty and every character is a decimal digit (exotic Unicode digit
classes are not modelled; in particular it is false on the empty
string, as in Python). -/
def pyIsdigit (s : String) : Bool := !s.data.isEmpty && s.data.all Char.isDigit

/-- The comma/space removal of line 24:
q.replace(",", "").replace(" ", ""). -/
def removeCS (q : String) : String := pyRemoveAll ' ' (pyRemoveAll ',' q)

/-- Line 24: is_zip = q.replace(",", "").replace(" ", "").isdigit(). -/
def is_zip (q : String) : Bool := pyIsdigit (removeCS q)

/-- Line 26: zip_param = q if "," in q else f"\x7bq\x7d,US". -/
def zipParam (q : String) : String := if pyContains q ',' then q else q ++ ",US"

/-- The two upstream endpoints with the query parameters the source
URL-encodes into them (lines 27-35). -/
inductive Request where
  | zip (zp : String) (appid : String)
  | direct (q : String) (limit : Nat) (appid : String)
  deriving DecidableEq

/-- The result dict built on success (lines 50 and 63-68); lat and lon
hold whatever JSON values the upstream supplied. -/
structure LocationResult where
  label : String
  lat : Json
  lon : Json
  raw_query : String

/-- Lines 37-50: ZIP-path response handling, including the try/except
that turns any transport or parse failure into "Request error: ...". -/
def zipRespond (resp : Except String Json) (q : String) :
    Except PyErr (Option LocationResult × Option String) :=
  match resp with
  | .error e => .ok (none, some ("Request error: " ++ e))
  | .ok data =>
    if !(data.isObj && data.hasKey "lat" && data.hasKey "lon") then
      .ok (none, some "No result")
    else
      let name := pyOr (data.dget "name") (Json.str ("ZIP " ++ q))
      let country := data.dget "country"
      let label :=
        if country.truthy then pyStr name ++ ", " ++ pyStr country else pyStr name
      .ok (some { label := label, lat := data.dget "lat", lon := data.dget "lon",
                  raw_query := q }, none)

/-- Lines 37-42 and 51-68: free-form-path response handling. The
attribute accesses first.get(...) sit outside the try/except, so a
non-dict first element raises an uncaught AttributeError. -/
def directRespond (resp : Except String Json) (q : String) :
    Except PyErr (Option LocationResult × Option String) :=
  match resp with
  | .error e => .ok (none, some ("Request error: " ++ e))
  | .ok data =>
    match data with
    | .arr (first :: _) => do
        let nameJ ← pyGet first "name"
        let name := pyOr nameJ (Json.str q)
        let country ← pyGet first "country"
        let state ← pyGet first "state"
        let label := pyStr name
        let label := if country.truthy then label ++ ", " ++ pyStr country else label
        let label := if state.truthy then label ++ " (" ++ pyStr state ++ ")" else label
        let latJ ← pyGet first "lat"
        let lonJ ← pyGet first "lon"
        pure (some { label := label, lat := latJ, lon := lonJ, raw_query := q }, none)
    | _ => .ok (none, some "No result")

/-- Lines 16-68: geocode. `apiKey` models os.environ.get("OWM_API_KEY")
(absent or empty is falsy); `fetch` models the answer of the network to a
request. The second component is the list of requests issued, recorded
even when response handling later raises. -/
def geocode (apiKey : Option String) (query : String)
    (fetch : Request → Except String Json) :
    Except PyErr (Option LocationResult × Option String) × List Request :=
  if apiKey.getD "" = "" then (.ok (none, some "Missing OWM_API_KEY"), [])
  else
    let q := pyStrip query
    if q = "" then (.ok (none, some "Enter a ZIP or city"), [])
    else
      let key := apiKey.getD ""
      if is_zip q then
        let req := Request.zip (zipParam q) key
        (zipRespond (fetch req) q, [req])
      else
        let req := Request.direct q 1 key
        (directRespond (fetch req) q, [req])

/-- State of the cache directory and the override file
(~/.cache/redweather/zip_override). -/
structure FileSystem where
  dirExists : Bool
  overrideContent : Option String
  deriving DecidableEq

/-- Whether the operating system will let this process create the cache
directory and write the override file. -/
structure IoCond where
  mkdirOk : Bool
  writeOk : Bool
  deriving DecidableEq

/-- Lines 71-74: os.makedirs(CACHE_DIR, exist_ok=True) — a no-op when
the directory already exists — then overwrite the override file with
the trimmed query. Either step may raise an IOError. -/
def save_override (raw_query : String) (ioc : IoCond) (fs : FileSystem) :
    Except PyErr FileSystem :=
  if !fs.dirExists && !ioc.mkdirOk then .error .ioError
  else if !ioc.writeOk then .error .ioError
  else .ok { dirExists := true, overrideContent := some (pyStrip raw_query) }

/-- Outcome of attempting subprocess.run(["pkill", "-SIGUSR2", "waybar"]):
either the helper process ran and exited with some code (pkill exits 1
when no process matched), or spawning it raised an exception. -/
inductive SpawnOutcome where
  | completed (exitCode : Int)
  | raised (msg : String)
  deriving DecidableEq

/-- subprocess.run with check=False: a non-zero exit code does not
raise; only a spawn failure does. -/
def subprocessRun (o : SpawnOutcome) : Except String Int :=
  match o with
  | .completed code => .ok code
  | .raised msg => .error msg

/-- Lines 77-81: reload_waybar wraps subprocess.run in try/except and
swallows every exception. -/
def reload_waybar (o : SpawnOutcome) : Except PyErr Unit :=
  match subprocessRun o with
  | .ok _ => .ok ()
  | .error _ => .ok ()

/-- The mutable dialog state: the stored last successful raw query,
the status and result text variables, whether Save is enabled, and
whether the window has been destroyed. -/
structure DialogState where
  currentRaw : Option String
  statusVar : String
  resultVar : String
  saveEnabled : Bool
  closed : Bool
  deriving DecidableEq

/-- Lines 117-131: the Check handler. It clears the result text and
disables Save, runs geocode on the stripped entry text, and renders an
error as status text; an exception escaping geocode propagates out of
the handler, since nothing here catches it. -/
def do_check (apiKey : Option String) (fetch : Request → Except String Json)
    (entryText : String) (st : DialogState) : Except PyErr DialogState :=
  let q := pyStrip entryText
  let st1 := { st with resultVar := "", saveEnabled := false }
  match (geocode apiKey q fetch).1 with
  | .error e => .error e
  | .ok (info, err) =>
    if (err.getD "") ≠ "" then .ok { st1 with statusVar := err.getD "" }
    else
      match info with
      | none => .ok { st1 with statusVar := "No result" }
      | some r =>
        .ok { st1 with resultVar := "→ " ++ r.label,
                       statusVar := "OK",
                       currentRaw := some r.raw_query,
                       saveEnabled := true }

/-- Lines 133-140: the Save handler. With no stored query (or an empty
one, which is falsy) it only reports "Nothing to save"; otherwise it
runs save_override, then reload_waybar, then destroys the window.
There is no try/except here, so an IOError raised by save_override
propagates out of the handler. -/
def do_save (ioc : IoCond) (spawn : SpawnOutcome) (st : DialogState)
    (fs : FileSystem) : Except PyErr (DialogState × FileSystem) :=
  match st.currentRaw with
  | none => .ok ({ st with statusVar := "Nothing to save" }, fs)
  | some raw =>
    if raw = "" then .ok ({ st with statusVar := "Nothing to save" }, fs)
    else
      match save_override raw ioc fs with
      | .error e => .error e
      | .ok fs1 =>
        match reload_waybar spawn with
        | .error e => .error e
        | .ok _ => .ok ({ st with closed := true }, fs1)

/-- The ZIP-path display label exactly as claim C3 states it: the name
defaults to "ZIP <code>" only when the upstream omits the name field,
and the country suffix appears whenever a country field is present.
This definition follows the wording of the claim, for comparison with
the behaviour of the code. -/
def zipLabelStated (fields : List (String × Json)) (q : String) : String :=
  let name : String :=
    match jsonLookup fields "name" with
    | some v => pyStr v
    | none => "ZIP " ++ q
  match jsonLookup fields "country" with
  | some c => name ++ ", " ++ pyStr c
  | none => name

/-- The ZIP-path display label as amended: the name defaults to
"ZIP <code>" whenever the upstream name value is falsy (absent, null or
empty), and the country suffix appears whenever the country value is
truthy. Follows the wording of the amended claim. -/
def zipLabelClaim (fields : List (String × Json)) (q : String) : String :=
  let nameVal := (jsonLookup fields "name").getD Json.null
  let name : String := if nameVal.truthy then pyStr nameVal else "ZIP " ++ q
  let countryVal := (jsonLookup fields "country").getD Json.null
  if countryVal.truthy then name ++ ", " ++ pyStr countryVal else name

/-- The free-form-path display label as amended: the name defaults to
the original (stripped) input whenever the upstream name value is falsy
(absent, null or empty); the country suffix appears whenever the
country value is truthy, and the state suffix whenever the state value
is truthy. Follows the wording of the amended claim. -/
def directLabelClaim (fields : List (String × Json)) (q : String) : String :=
  let nameVal := (jsonLookup fields "name").getD Json.null
  let name : String := if nameVal.truthy then pyStr nameVal else q
  let countryVal := (jsonLookup fields "country").getD Json.null
  let withCountry :=
    if countryVal.truthy then name ++ ", " ++ pyStr countryVal else name
  let stateVal := (jsonLookup fields "state").getD Json.null
  if stateVal.truthy then withCountry ++ " (" ++ pyStr stateVal ++ ")"
  else withCountry

/-! Helper lemmas shared by the claim theorems. -/

theorem string_ne_empty_iff (s : String) : s.data.isEmpty = false ↔ s ≠ "" := by
  rw [List.isEmpty_eq_false]
  constructor
  · intro h heq
    apply h
    rw [heq]
  · intro h hd
    exact h (String.ext hd)

theorem is_zip_eq_true_iff (q : String) :
    is_zip q = true ↔
      removeCS q ≠ "" ∧ (removeCS q).data.all Char.isDigit = true := by
  unfold is_zip pyIsdigit
  rw [Bool.and_eq_true, Bool.not_eq_true', string_ne_empty_iff]

theorem geocode_run (key query : String) (fetch : Request → Except String Json)
    (hk : key ≠ "") (hq : pyStrip query ≠ "") :
    geocode (some key) query fetch =
      if is_zip (pyStrip query) = true then
        (zipRespond (fetch (Request.zip (zipParam (pyStrip query)) key)) (pyStrip query),
         [Request.zip (zipParam (pyStrip query)) key])
      else
        (directRespond (fetch (Request.direct (pyStrip query) 1 key)) (pyStrip query),
         [Request.direct (pyStrip query) 1 key]) := by
  simp [geocode, hk, hq]

/-- C1: for every input whose stripped form is non-empty, geocode takes
the ZIP path — issues its one request to the ZIP lookup endpoint — iff
the stripped input, after removing all commas and spaces, is non-empty
and consists only of digits; every other such input is sent to the
free-form search endpoint, in particular an input that becomes empty
after removing commas and spaces (Python isdigit is false on the
empty string, exactly as the edge-case clause of the claim requires). -/
theorem geocode_zip_classification (s key : String)
    (fetch : Request → Except String Json) (hk : key ≠ "") (hs : pyStrip s ≠ "") :
    ((geocode (some key) s fetch).2 = [Request.zip (zipParam (pyStrip s)) key] ↔
      (removeCS (pyStrip s) ≠ "" ∧ (removeCS (pyStrip s)).data.all Char.isDigit = true)) ∧
    ((geocode (some key) s fetch).2 = [Request.direct (pyStrip s) 1 key] ↔
      ¬(removeCS (pyStrip s) ≠ "" ∧ (removeCS (pyStrip s)).data.all Char.isDigit = true)) := by
  rw [geocode_run key s fetch hk hs, ← is_zip_eq_true_iff]
  by_cases hz : is_zip (pyStrip s) = true
  · rw [if_pos hz]
    simp [hz]
  · rw [if_neg hz]
    simp [hz]

/-- Witness for C1 at the input ",", which strips to itself and becomes
empty after removing commas and spaces: the code sends it to the
free-form endpoint. -/
theorem geocode_zip_classification_witness :
    (((geocode (some "k") "," (fun _ => Except.error "offline")).2 =
        [Request.zip (zipParam (pyStrip ",")) "k"] ↔
      (removeCS (pyStrip ",") ≠ "" ∧
        (removeCS (pyStrip ",")).data.all Char.isDigit = true)) ∧
     ((geocode (some "k") "," (fun _ => Except.error "offline")).2 =
        [Request.direct (pyStrip ",") 1 "k"] ↔
      ¬(removeCS (pyStrip ",") ≠ "" ∧
        (removeCS (pyStrip ",")).data.all Char.isDigit = true))) :=
  geocode_zip_classification "," "k" (fun _ => Except.error "offline")
    (by decide) (by decide)

/-- C2: on the ZIP path, the parameter handed to the lookup endpoint is
the stripped input itself when it contains a comma, and the stripped
input with the default country suffix ",US" appended otherwise. -/
theorem geocode_zip_param (s key : String) (fetch : Request → Except String Json)
    (hk : key ≠ "") (hz : is_zip (pyStrip s) = true) :
    (pyContains (pyStrip s) ',' = true →
      (geocode (some key) s fetch).2 = [Request.zip (pyStrip s) key]) ∧
    (pyContains (pyStrip s) ',' = false →
      (geocode (some key) s fetch).2 = [Request.zip (pyStrip s ++ ",US") key]) := by
  have hs : pyStrip s ≠ "" := by
    intro h
    rw [h] at hz
    exact absurd hz (by decide)
  rw [geocode_run key s fetch hk hs, if_pos hz]
  constructor
  · intro hc
    simp [zipParam, hc]
  · intro hc
    simp [zipParam, hc]

/-- Witness for C2 at "90210,1" (digits with a comma, hence ZIP path):
the parameter is passed through unchanged. -/
theorem geocode_zip_param_witness :
    ((pyContains (pyStrip "90210,1") ',' = true →
      (geocode (some "k") "90210,1" (fun _ => Except.error "offline")).2 =
        [Request.zip (pyStrip "90210,1") "k"]) ∧
     (pyContains (pyStrip "90210,1") ',' = false →
      (geocode (some "k") "90210,1" (fun _ => Except.error "offline")).2 =
        [Request.zip (pyStrip "90210,1" ++ ",US") "k"])) :=
  geocode_zip_param "90210,1" "k" (fun _ => Except.error "offline")
    (by decide) (by decide)

/-- C5: with no credential configured (environment variable absent, or
present but empty — both falsy) geocode fails with the configuration
error and issues no request; with a credential configured but an input
that strips to the empty string it fails with the input error, again
issuing no request. The source renders ConfigurationError as the
status string "Missing OWM_API_KEY" and InputError as "Enter a ZIP or
city". -/
theorem geocode_precheck_errors :
    (∀ (q : String) (fetch : Request → Except String Json),
      geocode none q fetch = (.ok (none, some "Missing OWM_API_KEY"), [])) ∧
    (∀ (q : String) (fetch : Request → Except String Json),
      geocode (some "") q fetch = (.ok (none, some "Missing OWM_API_KEY"), [])) ∧
    (∀ (key q : String) (fetch : Request → Except String Json), key ≠ "" →
      pyStrip q = "" →
      geocode (some key) q fetch = (.ok (none, some "Enter a ZIP or city"), [])) := by
  refine ⟨fun q fetch => rfl, fun q fetch => rfl, fun key q fetch hk hq => ?_⟩
  simp [geocode, hk, hq]

/-- Witness for C5: geocode on a whitespace-only input with a configured
credential fails with the input error and an empty request log. -/
theorem geocode_precheck_errors_witness :
    geocode (some "k") "   " (fun _ => Except.error "offline") =
      (.ok (none, some "Enter a ZIP or city"), []) :=
  geocode_precheck_errors.2.2 "k" "   " (fun _ => Except.error "offline")
    (by decide) (by decide)

theorem except_bind_ok {ε α β : Type} (a : α) (f : α → Except ε β) :
    (Except.ok a : Except ε α) >>= f = f a := rfl

theorem except_bind_error {ε α β : Type} (e : ε) (f : α → Except ε β) :
    (Except.error e : Except ε α) >>= f = Except.error e := rfl

/-- C3 counterexample: the upstream answers the ZIP lookup for "90210"
with a present-but-empty name field. The claim as stated says the name
defaults only when the upstream omits a name, so the label should be
", US"; the code also defaults on an empty (falsy) name and produces
"ZIP 90210, US". -/
theorem zip_label_stated_counterexample :
    geocode (some "k") "90210"
        (fun _ => .ok (Json.obj [("lat", Json.num 1), ("lon", Json.num 2),
                                 ("name", Json.str ""), ("country", Json.str "US")])) =
      (.ok (some { label := "ZIP 90210, US", lat := Json.num 1, lon := Json.num 2,
                   raw_query := "90210" }, none),
       [Request.zip "90210,US" "k"]) ∧
    zipLabelStated [("lat", Json.num 1), ("lon", Json.num 2),
                    ("name", Json.str ""), ("country", Json.str "US")] "90210" =
      ", US" ∧
    ("ZIP 90210, US" : String) ≠ ", US" :=
  ⟨rfl, rfl, by decide⟩

/-- C3 as amended: on the ZIP path the attempt succeeds exactly on
responses that are a single object carrying both a lat and a lon key,
failing with the no-result error otherwise; on success the label
follows the claimed format with Python truthiness deciding the
defaults — the name falls back to "ZIP <code>" whenever the upstream
name value is falsy (absent, null or empty), and the country suffix
appears whenever the country value is truthy. -/
theorem zip_response_amended :
    (∀ (q : String) (fields : List (String × Json)),
      (jsonLookup fields "lat").isSome = true →
      (jsonLookup fields "lon").isSome = true →
      zipRespond (.ok (.obj fields)) q =
        .ok (some { label := zipLabelClaim fields q,
                    lat := (jsonLookup fields "lat").getD Json.null,
                    lon := (jsonLookup fields "lon").getD Json.null,
                    raw_query := q }, none)) ∧
    (∀ (q : String) (data : Json),
      (data.isObj && data.hasKey "lat" && data.hasKey "lon") = false →
      zipRespond (.ok data) q = .ok (none, some "No result")) := by
  constructor
  · intro q fields hlat hlon
    cases hn : Json.truthy ((jsonLookup fields "name").getD Json.null) <;>
      cases hc : Json.truthy ((jsonLookup fields "country").getD Json.null) <;>
        simp [zipRespond, Json.isObj, Json.hasKey, Json.dget, hlat, hlon,
              zipLabelClaim, pyOr, pyStr, hn, hc]
  · intro q data hfail
    simp [zipRespond, hfail]

/-- Witness for the amended C3: a stubbed response with name and
country present and truthy yields the claimed label and the upstream
coordinates. -/
theorem zip_response_amended_witness :
    zipRespond (.ok (.obj [("lat", Json.num 34), ("lon", Json.num (-118)),
                           ("name", Json.str "Beverly Hills"),
                           ("country", Json.str "US")])) "90210" =
      .ok (some { label := zipLabelClaim
                    [("lat", Json.num 34), ("lon", Json.num (-118)),
                     ("name", Json.str "Beverly Hills"),
                     ("country", Json.str "US")] "90210",
                  lat := (jsonLookup [("lat", Json.num 34), ("lon", Json.num (-118)),
                                      ("name", Json.str "Beverly Hills"),
                                      ("country", Json.str "US")] "lat").getD Json.null,
                  lon := (jsonLookup [("lat", Json.num 34), ("lon", Json.num (-118)),
                                      ("name", Json.str "Beverly Hills"),
                                      ("country", Json.str "US")] "lon").getD Json.null,
                  raw_query := "90210" }, none) :=
  zip_response_amended.1 "90210"
    [("lat", Json.num 34), ("lon", Json.num (-118)),
     ("name", Json.str "Beverly Hills"), ("country", Json.str "US")]
    (by rfl) (by rfl)

/-- C4 counterexample: the upstream answers the free-form search with
the non-empty sequence [42]. The claim as stated says the attempt
succeeds using the first element (with the label defaulting to the
input, since a bare number carries no name field); the code instead
raises an uncaught AttributeError at first.get("name") — it is outside
the try/except — so the attempt neither succeeds nor reports a
no-result error. -/
theorem direct_nonobject_first_counterexample :
    geocode (some "k") "Paris" (fun _ => .ok (.arr [Json.num 42])) =
      (.error .attributeError, [Request.direct "Paris" 1 "k"]) ∧
    ((geocode (some "k") "Paris" (fun _ => .ok (.arr [Json.num 42]))).1).isOk =
      false :=
  ⟨rfl, rfl⟩

/-- C4 as amended: on the free-form path a response that is not a
non-empty sequence fails with the no-result error; a non-empty
sequence whose first element is an object succeeds, using only that
first element, with the claimed label format under Python truthiness
(name falls back to the stripped input whenever the upstream name
value is falsy; country and state suffixes appear whenever those
values are truthy); a non-empty sequence whose first element is not an
object raises an uncaught AttributeError instead of returning. -/
theorem direct_response_amended :
    (∀ (q : String) (fields : List (String × Json)) (rest : List Json),
      directRespond (.ok (.arr (.obj fields :: rest))) q =
        .ok (some { label := directLabelClaim fields q,
                    lat := (jsonLookup fields "lat").getD Json.null,
                    lon := (jsonLookup fields "lon").getD Json.null,
                    raw_query := q }, none)) ∧
    (∀ q : String, directRespond (.ok (.arr [])) q = .ok (none, some "No result")) ∧
    (∀ (q : String) (data : Json), data.isArr = false →
      directRespond (.ok data) q = .ok (none, some "No result")) ∧
    (∀ (q : String) (first : Json) (rest : List Json), first.isObj = false →
      directRespond (.ok (.arr (first :: rest))) q = .error .attributeError) := by
  refine ⟨?_, ?_, ?_, ?_⟩
  · intro q fields rest
    cases hn : Json.truthy ((jsonLookup fields "name").getD Json.null) <;>
      cases hc : Json.truthy ((jsonLookup fields "country").getD Json.null) <;>
        cases hs : Json.truthy ((jsonLookup fields "state").getD Json.null) <;>
          simp [directRespond, pyGet, directLabelClaim, pyOr, pyStr,
                except_bind_ok, hn, hc, hs]
  · intro q
    rfl
  · intro q data hd
    cases data <;> simp_all [directRespond, Json.isArr]
  · intro q first rest hobj
    cases first <;>
      simp_all [directRespond, pyGet, Json.isObj, except_bind_error]

/-- Witness for the amended C4 at a concrete non-object first element:
the free-form response [["x"]] makes the handler raise. -/
theorem direct_response_amended_witness :
    directRespond (.ok (.arr [Json.str "oops"])) "Lyon" =
      .error .attributeError :=
  direct_response_amended.2.2.2 "Lyon" (Json.str "oops") [] (by rfl)

/-- C6 counterexample: a successful free-form resolution whose first
element is an empty object yields a LocationResult with latitude and
longitude null — the claim says a successful geocode never yields an
absent or null coordinate. -/
theorem geocode_null_coordinates_counterexample :
    geocode (some "k") "Lille" (fun _ => .ok (.arr [Json.obj []])) =
      (.ok (some { label := "Lille", lat := Json.null, lon := Json.null,
                   raw_query := "Lille" }, none),
       [Request.direct "Lille" 1 "k"]) ∧
    Json.isNum Json.null = false :=
  ⟨rfl, rfl⟩

/-- C6 as amended: a successful resolution copies the upstream latitude
and longitude values into the result unvalidated; in particular the
coordinates are numbers whenever the upstream supplies numbers, on
either path. -/
theorem geocode_coordinates_amended :
    (∀ (q : String) (fields : List (String × Json)) (n m : Rat),
      jsonLookup fields "lat" = some (Json.num n) →
      jsonLookup fields "lon" = some (Json.num m) →
      zipRespond (.ok (.obj fields)) q =
        .ok (some { label := zipLabelClaim fields q,
                    lat := Json.num n, lon := Json.num m,
                    raw_query := q }, none)) ∧
    (∀ (q : String) (fields : List (String × Json)) (rest : List Json) (n m : Rat),
      jsonLookup fields "lat" = some (Json.num n) →
      jsonLookup fields "lon" = some (Json.num m) →
      directRespond (.ok (.arr (.obj fields :: rest))) q =
        .ok (some { label := directLabelClaim fields q,
                    lat := Json.num n, lon := Json.num m,
                    raw_query := q }, none)) := by
  constructor
  · intro q fields n m hlat hlon
    cases hn : Json.truthy ((jsonLookup fields "name").getD Json.null) <;>
      cases hc : Json.truthy ((jsonLookup fields "country").getD Json.null) <;>
        simp [zipRespond, Json.isObj, Json.hasKey, Json.dget, hlat, hlon,
              zipLabelClaim, pyOr, pyStr, hn, hc]
  · intro q fields rest n m hlat hlon
    cases hn : Json.truthy ((jsonLookup fields "name").getD Json.null) <;>
      cases hc : Json.truthy ((jsonLookup fields "country").getD Json.null) <;>
        cases hs : Json.truthy ((jsonLookup fields "state").getD Json.null) <;>
          simp [directRespond, pyGet, directLabelClaim, pyOr, pyStr,
                except_bind_ok, hlat, hlon, hn, hc, hs]

/-- Witness for the amended C6: numeric upstream coordinates reach the
result as numbers on the ZIP path. -/
theorem geocode_coordinates_amended_witness :
    zipRespond (.ok (.obj [("lat", Json.num 34), ("lon", Json.num (-118))])) "90210" =
      .ok (some { label := zipLabelClaim
                    [("lat", Json.num 34), ("lon", Json.num (-118))] "90210",
                  lat := Json.num 34, lon := Json.num (-118),
                  raw_query := "90210" }, none) :=
  geocode_coordinates_amended.1 "90210"
    [("lat", Json.num 34), ("lon", Json.num (-118))] 34 (-118) (by rfl) (by rfl)

/-- C7 counterexample: with a stored query, a missing cache directory
and an OS that refuses to create it, the Save handler does not render
the IOError as status text — it has no try/except, so the error
propagates out of the dialog controller. -/
theorem do_save_ioerror_counterexample :
    do_save { mkdirOk := false, writeOk := false } (.completed 0)
        { currentRaw := some "90210", statusVar := "OK",
          resultVar := "→ ZIP 90210", saveEnabled := true, closed := false }
        { dirExists := false, overrideContent := none } =
      .error .ioError := rfl

/-- C7 as amended: errors reported by geocode during Check are caught
and rendered as the status string (the Check handler returns normally
whenever geocode returns normally), but an IOError raised by
save_override during Save is not caught: do_save propagates it past
the dialog controller. -/
theorem ui_error_boundary_amended :
    (∀ (apiKey : Option String) (fetch : Request → Except String Json)
        (txt : String) (st : DialogState) (info : Option LocationResult)
        (err : Option String) (reqs : List Request),
      geocode apiKey (pyStrip txt) fetch = (.ok (info, err), reqs) →
      ∃ st1, do_check apiKey fetch txt st = .ok st1 ∧
        (∀ e, err = some e → e ≠ "" → st1.statusVar = e)) ∧
    (∀ (ioc : IoCond) (spawn : SpawnOutcome) (st : DialogState)
        (fs : FileSystem) (raw : String) (e : PyErr),
      st.currentRaw = some raw → raw ≠ "" →
      save_override raw ioc fs = .error e →
      do_save ioc spawn st fs = .error e) := by
  constructor
  · intro apiKey fetch txt st info err reqs h
    simp only [do_check, h]
    by_cases he : (err.getD "") = ""
    · rw [if_neg (fun hne => hne he)]
      cases info with
      | none =>
        refine ⟨_, rfl, ?_⟩
        intro e hee hne
        rw [hee] at he
        exact absurd he hne
      | some r =>
        refine ⟨_, rfl, ?_⟩
        intro e hee hne
        rw [hee] at he
        exact absurd he hne
    · rw [if_pos he]
      refine ⟨_, rfl, ?_⟩
      intro e hee _
      simp [hee]
  · intro ioc spawn st fs raw e hcur hraw hsave
    simp only [do_save, hcur]
    rw [if_neg hraw, hsave]

/-- Witness for the amended C7: a concrete Save with a stored query and
a read-only filesystem propagates the IOError. -/
theorem ui_error_boundary_amended_witness :
    do_save { mkdirOk := false, writeOk := true } (.completed 0)
        { currentRaw := some "10001", statusVar := "OK", resultVar := "",
          saveEnabled := true, closed := false }
        { dirExists := false, overrideContent := none } =
      .error .ioError :=
  ui_error_boundary_amended.2 { mkdirOk := false, writeOk := true }
    (.completed 0)
    { currentRaw := some "10001", statusVar := "OK", resultVar := "",
      saveEnabled := true, closed := false }
    { dirExists := false, overrideContent := none } "10001" .ioError
    rfl (by decide) rfl

theorem reload_waybar_eq_ok (o : SpawnOutcome) : reload_waybar o = .ok () := by
  cases o <;> rfl

/-- C8: the notifier is fire-and-forget — for every outcome of the
signalling attempt (spawn failure or any exit code, the no-match exit of pkill included) reload_waybar raises nothing, and the result of the Save handler is entirely independent of the notifier outcome. -/
theorem reload_waybar_fire_and_forget :
    (∀ o : SpawnOutcome, reload_waybar o = .ok ()) ∧
    (∀ (ioc : IoCond) (o o2 : SpawnOutcome) (st : DialogState) (fs : FileSystem),
      do_save ioc o st fs = do_save ioc o2 st fs) := by
  refine ⟨reload_waybar_eq_ok, ?_⟩
  intro ioc o o2 st fs
  simp only [do_save, reload_waybar_eq_ok]

/-- C9: saving writes exactly the trimmed query to the override file,
creating the cache directory when absent; reading the store back
yields the trimmed text; a second save (for which directory creation
is an idempotent no-op, whatever the mkdir permission) leaves only the
most recent value. -/
theorem save_override_roundtrip (q q2 : String) (ioc : IoCond) (fs : FileSystem)
    (hmk : ioc.mkdirOk = true) (hw : ioc.writeOk = true) :
    save_override q ioc fs =
      .ok { dirExists := true, overrideContent := some (pyStrip q) } ∧
    save_override q2 ioc { dirExists := true, overrideContent := some (pyStrip q) } =
      .ok { dirExists := true, overrideContent := some (pyStrip q2) } ∧
    (∀ ioc2 : IoCond, ioc2.writeOk = true →
      save_override q2 ioc2 { dirExists := true, overrideContent := some (pyStrip q) } =
        .ok { dirExists := true, overrideContent := some (pyStrip q2) }) := by
  refine ⟨?_, ?_, ?_⟩
  · simp [save_override, hmk, hw]
  · simp [save_override, hw]
  · intro ioc2 hw2
    simp [save_override, hw2]

/-- Witness for C9: saving "90210" then "10001" on a fresh filesystem
creates the directory and leaves exactly "10001". -/
theorem save_override_roundtrip_witness :
    save_override "90210" { mkdirOk := true, writeOk := true }
        { dirExists := false, overrideContent := none } =
      .ok { dirExists := true, overrideContent := some (pyStrip "90210") } :=
  (save_override_roundtrip "90210" "10001" { mkdirOk := true, writeOk := true }
    { dirExists := false, overrideContent := none } rfl rfl).1

theorem zipRespond_exclusive (resp : Except String Json) (q : String)
    (info : Option LocationResult) (err : Option String)
    (h : zipRespond resp q = .ok (info, err)) :
    (info.isSome = true ↔ err = none) ∧
    (∀ r, info = some r → r.raw_query = q) := by
  cases resp with
  | error e =>
    simp [zipRespond] at h
    obtain ⟨h1, h2⟩ := h
    subst h1
    subst h2
    simp
  | ok data =>
    simp only [zipRespond] at h
    cases hx : (data.isObj && data.hasKey "lat" && data.hasKey "lon") with
    | false =>
      rw [hx] at h
      simp at h
      obtain ⟨h1, h2⟩ := h
      subst h1
      subst h2
      simp
    | true =>
      rw [hx] at h
      simp at h
      obtain ⟨h1, h2⟩ := h
      subst h1
      subst h2
      constructor
      · simp
      · intro r hr
        injection hr with hh
        subst hh
        rfl

theorem directRespond_exclusive (resp : Except String Json) (q : String)
    (info : Option LocationResult) (err : Option String)
    (h : directRespond resp q = .ok (info, err)) :
    (info.isSome = true ↔ err = none) ∧
    (∀ r, info = some r → r.raw_query = q) := by
  cases resp with
  | error e =>
    simp [directRespond] at h
    obtain ⟨h1, h2⟩ := h
    subst h1
    subst h2
    simp
  | ok data =>
    cases data with
    | arr elems =>
      cases elems with
      | nil =>
        simp [directRespond] at h
        obtain ⟨h1, h2⟩ := h
        subst h1
        subst h2
        simp
      | cons first rest =>
        cases first with
        | obj fields =>
          simp [directRespond, pyGet, except_bind_ok, pure, Except.pure] at h
          obtain ⟨h1, h2⟩ := h
          subst h1
          subst h2
          constructor
          · simp
          · intro r hr
            injection hr with hh
            subst hh
            rfl
        | null => simp [directRespond, pyGet, except_bind_error] at h
        | bool b => simp [directRespond, pyGet, except_bind_error] at h
        | num n => simp [directRespond, pyGet, except_bind_error] at h
        | str s => simp [directRespond, pyGet, except_bind_error] at h
        | arr l => simp [directRespond, pyGet, except_bind_error] at h
    | null =>
      simp [directRespond] at h
      obtain ⟨h1, h2⟩ := h
      subst h1
      subst h2
      simp
    | bool b =>
      simp [directRespond] at h
      obtain ⟨h1, h2⟩ := h
      subst h1
      subst h2
      simp
    | num n =>
      simp [directRespond] at h
      obtain ⟨h1, h2⟩ := h
      subst h1
      subst h2
      simp
    | str s =>
      simp [directRespond] at h
      obtain ⟨h1, h2⟩ := h
      subst h1
      subst h2
      simp
    | obj fields =>
      simp [directRespond] at h
      obtain ⟨h1, h2⟩ := h
      subst h1
      subst h2
      simp

/-- C10 counterexample: on the free-form response ["oops"] — a
non-empty sequence whose first element is a string — geocode neither
returns a result nor an error message: it raises an uncaught
AttributeError, so there are upstream responses on which geocode
returns neither of the two. -/
theorem geocode_no_return_counterexample :
    geocode (some "k") "Berlin" (fun _ => .ok (.arr [Json.str "oops"])) =
      (.error .attributeError, [Request.direct "Berlin" 1 "k"]) ∧
    ((geocode (some "k") "Berlin" (fun _ => .ok (.arr [Json.str "oops"]))).1).isOk =
      false :=
  ⟨rfl, rfl⟩

/-- C10 as amended: whenever geocode returns at all (it can instead
raise an AttributeError, but only on a free-form response whose first
element is not an object), it returns exactly one of a result record
and an error message, and every returned result carries the stripped
input as its raw_query. -/
theorem geocode_exclusive_outcome (apiKey : Option String) (q : String)
    (fetch : Request → Except String Json)
    (info : Option LocationResult) (err : Option String) (reqs : List Request)
    (h : geocode apiKey q fetch = (.ok (info, err), reqs)) :
    (info.isSome = true ↔ err = none) ∧
    (∀ r, info = some r → r.raw_query = pyStrip q) := by
  simp only [geocode] at h
  by_cases hkey : apiKey.getD "" = ""
  · rw [if_pos hkey] at h
    simp at h
    obtain ⟨⟨h1, h2⟩, _⟩ := h
    subst h1
    subst h2
    simp
  · rw [if_neg hkey] at h
    by_cases hq : pyStrip q = ""
    · rw [if_pos hq] at h
      simp at h
      obtain ⟨⟨h1, h2⟩, _⟩ := h
      subst h1
      subst h2
      simp
    · rw [if_neg hq] at h
      by_cases hz : is_zip (pyStrip q) = true
      · rw [if_pos hz] at h
        exact zipRespond_exclusive _ _ _ _ (congrArg Prod.fst h)
      · rw [if_neg hz] at h
        exact directRespond_exclusive _ _ _ _ (congrArg Prod.fst h)

/-- Witness for the amended C10: a concrete successful ZIP resolution
of " 90210 " returns a result, no error, and raw_query "90210". -/
theorem geocode_exclusive_outcome_witness :
    (Option.isSome
        (some (⟨"ZIP 90210", Json.num 34, Json.num (-118), "90210"⟩ :
          LocationResult)) = true ↔
      (none : Option String) = none) :=
  (geocode_exclusive_outcome (some "k") " 90210 "
    (fun _ => .ok (.obj [("lat", Json.num 34), ("lon", Json.num (-118))]))
    (some { label := "ZIP 90210", lat := Json.num 34, lon := Json.num (-118),
            raw_query := "90210" })
    none [Request.zip "90210,US" "k"] rfl).1
